import Mathlib

/-!
Verification of the job orchestration and streaming subsystem of the
pop compilation server (`server.js`), as a shallow embedding in Lean.

Timestamps (ISO strings in the source) are modelled as opaque `String`
values supplied by the caller; the in-memory `jobs` Map is modelled as a
function from job ids to optional job records.
-/

/-- One entry of a job's log, as pushed by `addJobLog` (server.js:63-67). -/
structure LogEntry where
  timestamp : String
  type : String
  message : String
deriving DecidableEq, Repr

/-- A job record, exactly the object literal built by `createJob`
(server.js:28-42). `null` fields are modelled with `Option`. -/
structure Job where
  id : String
  contractName : String
  code : String
  status : String
  createdAt : String
  startedAt : Option String
  completedAt : Option String
  logs : List LogEntry
  stdout : String
  stderr : String
  result : Option String
  error : Option String
  exitCode : Option Int
deriving DecidableEq, Repr

/-- The in-memory job store (`const jobs = new Map()`, server.js:10). -/
def Store : Type := String → Option Job

/-- `jobs.set(jobId, job)` (server.js:43,55). -/
def jobsSet (s : Store) (jobId : String) (job : Job) : Store :=
  fun k => if k = jobId then some job else s k

/-- `createJob(contractName, code)` (server.js:26-45).  The generated id
(`generateJobId`, a time/random string) is supplied by the caller, as is
the `new Date().toISOString()` creation timestamp. -/
def createJob (s : Store) (jobId contractName code now : String) : Store × Job :=
  let job : Job :=
    { id := jobId
      contractName := contractName
      code := code
      status := "queued"
      createdAt := now
      startedAt := none
      completedAt := none
      logs := []
      stdout := ""
      stderr := ""
      result := none
      error := none
      exitCode := none }
  (jobsSet s jobId job, job)

/-- `getJob(jobId)` (server.js:47-49). -/
def getJob (s : Store) (jobId : String) : Option Job :=
  s jobId

/-- `updateJob(jobId, updates)` (server.js:51-58).  The `updates` object
merged by `Object.assign` is modelled as a record-update function. -/
def updateJob (s : Store) (jobId : String) (f : Job → Job) : Store :=
  match s jobId with
  | some job => jobsSet s jobId (f job)
  | none => s

/-- `addJobLog(jobId, type, message)` (server.js:60-71): push one log
entry, and additionally extend the aggregated `stdout`/`stderr` field
when the entry type matches.  A total function: an unknown id leaves the
store untouched and raises nothing. -/
def addJobLog (s : Store) (jobId logType message now : String) : Store :=
  match s jobId with
  | some job =>
    let job1 := { job with logs := job.logs ++ [⟨now, logType, message⟩] }
    let job2 := if logType = "stdout" then { job1 with stdout := job1.stdout ++ message } else job1
    let job3 := if logType = "stderr" then { job2 with stderr := job2.stderr ++ message } else job2
    jobsSet s jobId job3
  | none => s

/-- Response body of `POST /compile-job` (server.js:363-368). -/
structure SubmitResponse where
  job_id : String
  status : String
  message : String
  created_at : String
deriving DecidableEq, Repr

/-- The `POST /compile-job` handler up to the point its response is sent
(server.js:353-368).  `code` is the request payload (`none` models an
absent field); `contractName` defaults to `"temp_contract"` when absent.
The asynchronous dispatch (`setImmediate(() => processCompilationJob _)`,
server.js:371) runs only after this function has produced its response,
so it is a separate step and not part of this definition. -/
def compileJobPost (s : Store) (code : Option String) (contractName : Option String)
    (jobId now : String) : Store × Except String SubmitResponse :=
  let name := contractName.getD "temp_contract"
  match code with
  | none => (s, Except.error "Rust contract code is required")
  | some c =>
    if c = "" then (s, Except.error "Rust contract code is required")
    else
      let p := createJob s jobId name c now
      (p.1, Except.ok
        { job_id := p.2.id
          status := p.2.status
          message := "Compilation job queued successfully"
          created_at := p.2.createdAt })

/-- Concatenation, in insertion order, of the messages of the log entries
on one channel. -/
def channelText (logs : List LogEntry) (ch : String) : String :=
  String.join ((logs.filter (fun e => e.type == ch)).map (fun e => e.message))

/-- Aggregation invariant of a job record: the `stdout`/`stderr` fields
equal the concatenated messages of the entries on the matching channel. -/
def aggInv (j : Job) : Prop :=
  j.stdout = channelText j.logs "stdout" ∧ j.stderr = channelText j.logs "stderr"

/-- The aggregation invariant, for every job present in the store. -/
def StoreInv (s : Store) : Prop :=
  ∀ jobId j, s jobId = some j → aggInv j

/-- JS rendering of a nullable exit code inside a template literal:
`Compilation failed with exit code null` when the close event delivers a
`null` code (process killed by signal). -/
def jsShowNullable : Option Int → String
  | some n => toString n
  | none => "null"

/-- The `updates` object of the dispatch transition (server.js:489-492). -/
def setRunningUpd (now : String) (j : Job) : Job :=
  { j with status := "running", startedAt := some now }

/-- The `updates` object of the zero-exit close branch (server.js:587-592). -/
def completeUpd (now : String) (code : Option Int) (j : Job) : Job :=
  { j with
    status := "completed"
    completedAt := some now
    exitCode := code
    result := some "Compilation successful" }

/-- The `updates` object of the non-zero-exit close branch (server.js:595-600). -/
def failUpd (now : String) (code : Option Int) (j : Job) : Job :=
  { j with
    status := "failed"
    completedAt := some now
    exitCode := code
    error := some "Compilation failed" }

/-- The `updates` object of the spawn-error handler (server.js:606-610) and
of the setup `catch` (server.js:615-619); neither sets `exitCode`. -/
def failErrUpd (now msg : String) (j : Job) : Job :=
  { j with status := "failed", completedAt := some now, error := some msg }

/-- Store effect of the `close` handler of `processCompilationJob`
(server.js:578-603): the terminal status update followed by one final log
entry of type `success` or `error`.  The `rmSync` it also performs is a
filesystem effect, modelled separately. -/
def closeHandlerStore (s : Store) (jobId : String) (code : Option Int)
    (tEnd tLog : String) : Store :=
  if code = some 0 then
    addJobLog (updateJob s jobId (completeUpd tEnd code)) jobId "success"
      "Compilation completed successfully" tLog
  else
    addJobLog (updateJob s jobId (failUpd tEnd code)) jobId "error"
      ("Compilation failed with exit code " ++ jsShowNullable code) tLog

/-- Store effect of the spawn-error handler (server.js:605-612). -/
def errorHandlerStore (s : Store) (jobId msg tEnd tLog : String) : Store :=
  addJobLog (updateJob s jobId (failErrUpd tEnd msg)) jobId "error"
    ("Process error: " ++ msg) tLog

/-- Store effect of the setup-failure `catch` (server.js:614-621). -/
def setupCatchStore (s : Store) (jobId msg tEnd tLog : String) : Store :=
  addJobLog (updateJob s jobId (failErrUpd tEnd msg)) jobId "error"
    ("Setup error: " ++ msg) tLog

/-- Concrete run of the zero-exit close handler, stopped between its two
store mutations: the terminal update (server.js:587-592) has run, the
final `success` log append (server.js:593) has not yet. -/
def c1ScenarioMid : Store :=
  updateJob (createJob (fun _ => none) "job_1" "temp_contract" "contract source" "t0").1
    "job_1" (completeUpd "t1" (some 0))

/-- The same run after the final log append of the close handler. -/
def c1ScenarioEnd : Store :=
  addJobLog c1ScenarioMid "job_1" "success" "Compilation completed successfully" "t2"

/-- One event written to a live log subscriber over server-sent events. -/
inductive StreamEvent where
  | log (entry : LogEntry)
  | complete (status : Option String)
deriving DecidableEq, Repr

/-- Events delivered by `GET /compile-job/:jobId/logs?stream=true`
(server.js:423-455): one event per entry already in `job.logs` at
connection time (server.js:433-436), then a single `complete` event.
For a queued/running job the `complete` event is produced by the 1000 ms
polling interval once it observes a terminal (or vanished) status
(server.js:440-448); the interval sends no log events, so entries
appended after connection are never delivered.  For an already-terminal
job, `complete` carries the job's own status (server.js:452-453). -/
def streamLogsEvents (connectJob : Job) (finalStatus : Option String) : List StreamEvent :=
  if connectJob.status = "running" ∨ connectJob.status = "queued" then
    connectJob.logs.map StreamEvent.log ++ [StreamEvent.complete finalStatus]
  else
    connectJob.logs.map StreamEvent.log ++ [StreamEvent.complete (some connectJob.status)]

/-- The log entries among a list of subscriber events. -/
def streamEventLogs (evs : List StreamEvent) : List LogEntry :=
  evs.filterMap (fun ev => match ev with
    | StreamEvent.log e => some e
    | StreamEvent.complete _ => none)

/-- Non-streaming branch of the logs endpoint (server.js:457-464): the
full entry list and both aggregated channels at the moment of the call. -/
def pullLogs (job : Job) : List LogEntry × String × String :=
  (job.logs, job.stdout, job.stderr)

/-- One store mutation performed by `processCompilationJob` for job
`jobId`: the dispatch update, a log append, or one of the terminal
updates (server.js:489-621). -/
inductive OrchestratorStep (jobId : String) : Store → Store → Prop where
  | run (s : Store) (now : String) :
      OrchestratorStep jobId s (updateJob s jobId (setRunningUpd now))
  | appendLog (s : Store) (logType message now : String) :
      OrchestratorStep jobId s (addJobLog s jobId logType message now)
  | finishOk (s : Store) (now : String) (code : Option Int) :
      OrchestratorStep jobId s (updateJob s jobId (completeUpd now code))
  | finishFail (s : Store) (now : String) (code : Option Int) :
      OrchestratorStep jobId s (updateJob s jobId (failUpd now code))
  | finishErr (s : Store) (now msg : String) :
      OrchestratorStep jobId s (updateJob s jobId (failErrUpd now msg))

/-- The job store evolving under any number of orchestrator mutations. -/
def OrchEvolves (jobId : String) : Store → Store → Prop :=
  Relation.ReflTransGen (OrchestratorStep jobId)

/-- A subscriber connects right after job creation: zero log entries. -/
def c2ConnectJob : Job :=
  (createJob (fun _ => none) "job_1" "temp_contract" "src" "t0").2

/-- The store once the orchestrator has dispatched the job and appended
its first log entry (server.js:489-494), after the subscriber connected. -/
def c2LaterStore : Store :=
  addJobLog (updateJob (createJob (fun _ => none) "job_1" "temp_contract" "src" "t0").1
    "job_1" (setRunningUpd "t1")) "job_1" "info" "Starting compilation..." "t2"

/-- Fixed cache base directory of the compile-job processor (server.js:497). -/
def baseDir : String := "/app/compile_cache"

/-- `path.join(baseDir, "cargo_home")` (server.js:498). -/
def cargoHomeDir : String := "/app/compile_cache/cargo_home"

/-- `path.join(baseDir, "target")` (server.js:499). -/
def cargoTargetDir : String := "/app/compile_cache/target"

/-- The per-job temporary working directory (server.js:500):
`path.join(baseDir, "temp", contractName_Date.now())`. -/
def tempDirFor (contractName : String) (nowMs : Nat) : String :=
  "/app/compile_cache/temp/" ++ contractName ++ "_" ++ toString nowMs

/-- JS string coercion of a possibly-undefined value, as produced by
`'/root/.cargo/bin:' + process.env.PATH` when `PATH` is unset. -/
def jsUndef : Option String → String
  | some s => s
  | none => "undefined"

/-- Environment handed to the spawned child (server.js:552-559): the
ambient service environment spread first (`...process.env`), then the
five controlled keys written over it. -/
def childEnv (ambient : String → Option String) : String → Option String := fun k =>
  if k = "CARGO_HOME" then some cargoHomeDir
  else if k = "CARGO_TARGET_DIR" then some cargoTargetDir
  else if k = "CARGO_INCREMENTAL" then some "1"
  else if k = "CARGO_BUILD_JOBS" then some "4"
  else if k = "PATH" then some ("/root/.cargo/bin:" ++ jsUndef (ambient "PATH"))
  else ambient k

/-- Options object of the compile-job `spawn` call (server.js:550-561).
The `timeout` field mirrors the `timeout` option of
`child_process.spawn`; the source options literal has no such key, so the
field is `none` (no maximum duration), and `processCompilationJob` sets
no kill timer either. -/
structure SpawnOptions where
  cwd : String
  env : String → Option String
  stdio : List String
  timeout : Option Nat

/-- The full `spawn` invocation of the compile-job processor
(server.js:550-561): command, argument list and options. -/
def compileJobSpawn (contractName : String) (nowMs : Nat)
    (ambient : String → Option String) : String × List String × SpawnOptions :=
  ("/root/.cargo/bin/pop", ["build"],
    { cwd := tempDirFor contractName nowMs
      env := childEnv ambient
      stdio := ["pipe", "pipe", "pipe"]
      timeout := none })

/-- A filesystem operation performed by `processCompilationJob`. -/
inductive FsOp where
  | mkdirRecursive (p : String)
  | writeFile (p : String)
  | rmRecursiveForce (p : String)
deriving DecidableEq, Repr

/-- How a compile-job run ends, for the purpose of tracking filesystem
effects: the child ran and its `close` event fired; the child never
started (`error` event, after which Node still emits `close` with a
`null` code); or one of the setup operations threw after `k` of them
succeeded (no child was ever spawned, so no `close` event exists). -/
inductive JobFsOutcome where
  | processClosed (code : Option Int)
  | launchError
  | setupFailure (k : Nat)
deriving DecidableEq, Repr

/-- The directory and file operations of the setup phase
(server.js:503-506 and 544-545), in program order. -/
def jobSetupFsOps (contractName : String) (nowMs : Nat) : List FsOp :=
  [FsOp.mkdirRecursive baseDir,
   FsOp.mkdirRecursive cargoHomeDir,
   FsOp.mkdirRecursive cargoTargetDir,
   FsOp.mkdirRecursive (tempDirFor contractName nowMs),
   FsOp.writeFile (tempDirFor contractName nowMs ++ "/Cargo.toml"),
   FsOp.writeFile (tempDirFor contractName nowMs ++ "/lib.rs")]

/-- All filesystem operations of one compile-job run, by outcome.  Only
the `close` handler removes the temp directory (server.js:579-584), and
the `close` event fires both after a normal exit and after a spawn
failure (Node emits `close` with a `null` code after `error`), so the
removal happens on both of those paths.  Neither the spawn-error handler
(server.js:605-612) nor the setup `catch` (server.js:614-621) performs a
filesystem operation itself, so a setup failure after `k` setup
operations leaves just that prefix behind — with no removal, since no
child and hence no `close` event exists on that path. -/
def processJobFsOps (contractName : String) (nowMs : Nat)
    (outcome : JobFsOutcome) : List FsOp :=
  match outcome with
  | JobFsOutcome.processClosed _ =>
      jobSetupFsOps contractName nowMs ++
        [FsOp.rmRecursiveForce (tempDirFor contractName nowMs)]
  | JobFsOutcome.launchError =>
      jobSetupFsOps contractName nowMs ++
        [FsOp.rmRecursiveForce (tempDirFor contractName nowMs)]
  | JobFsOutcome.setupFailure k => (jobSetupFsOps contractName nowMs).take k

/-- ASCII whitespace of the JS `\s` class (the Unicode space members do
not occur in toolchain output and are omitted). -/
def isJsWs (c : Char) : Bool :=
  c == ' ' || c == '\t' || c == '\r' || c == '\n' || c == Char.ofNat 11 || c == Char.ofNat 12

/-- Value of a digit string, as `parseInt(_, 10)` computes it. -/
def digitsToNat (ds : List Char) : Nat :=
  ds.foldl (fun n c => 10 * n + (c.toNat - 48)) 0

/-- `line.match(/^error\x5b(\x5b^\x5d\x5d+)\x5d: (.+)$/)` (server.js:312):
the code group is the nonempty run of non-bracket characters after
`error[`, which must be followed by the literal `]: ` and a nonempty
message reaching the end of the line. -/
def matchErrorLine (line : String) : Option (String × String) :=
  let cs := line.data
  if cs.take 6 = ['e', 'r', 'r', 'o', 'r', '['] then
    let code := (cs.drop 6).takeWhile (fun c => c ≠ ']')
    let rest := (cs.drop 6).dropWhile (fun c => c ≠ ']')
    if code = [] then none
    else
      match rest with
      | ']' :: ':' :: ' ' :: msg => if msg = [] then none else some (String.mk code, String.mk msg)
      | _ => none
  else none

/-- The `(.+):(\d+):(\d+)$` tail of the location pattern (server.js:326).
Because a digit group cannot contain `:`, the split is forced: the column
group is the maximal trailing digit run, the line group the maximal digit
run before the preceding `:`, and the file group all that remains before
its own `:` (which is what the greedy `.+` captures). -/
def locSplit (cs : List Char) : Option (String × Nat × Nat) :=
  let r := cs.reverse
  let d2 := r.takeWhile Char.isDigit
  let r2 := r.drop d2.length
  if d2 = [] then none
  else
    match r2 with
    | ':' :: r3 =>
      let d1 := r3.takeWhile Char.isDigit
      let r4 := r3.drop d1.length
      if d1 = [] then none
      else
        match r4 with
        | ':' :: fileRev =>
          if fileRev = [] then none
          else some (String.mk fileRev.reverse, digitsToNat d1.reverse, digitsToNat d2.reverse)
        | _ => none
    | _ => none

/-- The `\s*` between the arrow and the greedy file group: the JS engine
first consumes the maximal whitespace run (`k` characters) and, if the
rest of the pattern fails there, gives back one character at a time. -/
def locTryFrom : Nat → List Char → Option (String × Nat × Nat)
  | 0, cs => locSplit cs
  | k + 1, cs =>
    match locSplit (cs.drop (k + 1)) with
    | some r => some r
    | none => locTryFrom k cs

/-- `line.match(/^\s*-->\s*(.+):(\d+):(\d+)$/)` (server.js:326). -/
def matchLocationLine (line : String) : Option (String × Nat × Nat) :=
  let cs := line.data.dropWhile isJsWs
  if cs.take 3 = ['-', '-', '>'] then
    let rest := cs.drop 3
    locTryFrom ((rest.takeWhile isJsWs).length) rest
  else none

/-- JS `line.startsWith(pre)`, on the character lists. -/
def jsStartsWith (line pre : String) : Bool :=
  List.isPrefixOf pre.data line.data

/-- The detail-line condition (server.js:337): `line.trim()` is truthy
and the line starts with neither `Compiling` nor `Finished`. -/
def isDetailLine (line : String) : Bool :=
  !(line.data.all isJsWs) && !(jsStartsWith line "Compiling") && !(jsStartsWith line "Finished")

/-- The location attached to a structured error (server.js:328-332). -/
structure RustErrorLoc where
  file : String
  line : Nat
  column : Nat
deriving DecidableEq, Repr

/-- One structured error record (server.js:317-321); `location` is absent
until a location line is seen. -/
structure RustError where
  code : String
  message : String
  location : Option RustErrorLoc
  details : List String
deriving DecidableEq, Repr

/-- The line loop of `parseRustErrors` (server.js:310-340), with the
currently open record and the emitted records as explicit state: an
error line emits the open record and opens a fresh one; a location line
attaches a location to the open record; any other line is appended to the
open record's details when the detail condition holds; everything else —
in particular any line while no record is open — is dropped. -/
def parseLinesFrom : List String → Option RustError → List RustError → List RustError
  | [], cur, acc =>
    match cur with
    | some e => acc ++ [e]
    | none => acc
  | l :: ls, cur, acc =>
    match matchErrorLine l with
    | some cm =>
      parseLinesFrom ls (some { code := cm.1, message := cm.2, location := none, details := [] })
        (match cur with
         | some e => acc ++ [e]
         | none => acc)
    | none =>
      match matchLocationLine l, cur with
      | some loc, some e =>
        parseLinesFrom ls
          (some { e with location := some { file := loc.1, line := loc.2.1, column := loc.2.2 } })
          acc
      | _, _ =>
        match cur with
        | some e =>
          if isDetailLine l then
            parseLinesFrom ls (some { e with details := e.details ++ [l] }) acc
          else parseLinesFrom ls cur acc
        | none => parseLinesFrom ls none acc

/-- `parseRustErrors` on an already-split line list. -/
def parseRustErrorLines (lines : List String) : List RustError :=
  parseLinesFrom lines none []

/-- JS `String.prototype.split` with separator `'\n'`, on the character
list: note `[] -> [[]]`, as `''.split('\n')` is `['']`. -/
def splitNl : List Char → List (List Char)
  | [] => [[]]
  | c :: cs =>
    if c = '\n' then [] :: splitNl cs
    else
      match splitNl cs with
      | h :: t => (c :: h) :: t
      | [] => [[c]]

/-- `errorOutput.split('\n')` (server.js:306). -/
def jsSplitLines (s : String) : List String :=
  (splitNl s.data).map String.mk

/-- `parseRustErrors(errorOutput)` (server.js:304-348). -/
def parseRustErrors (errorOutput : String) : List RustError :=
  parseRustErrorLines (jsSplitLines errorOutput)

/-- C10: appending a log entry for an id not in the store is a silent
no-op: the whole store (hence every existing record) is unchanged and no
job is created. -/
theorem c10_addJobLog_unknown_id_noop (s : Store) (jobId logType message now : String)
    (h : s jobId = none) :
    addJobLog s jobId logType message now = s ∧
      getJob (addJobLog s jobId logType message now) jobId = none := by
  unfold addJobLog
  rw [h]
  exact ⟨rfl, h⟩

/-- Witness for C10 at a concrete empty store. -/
theorem c10_witness :
    addJobLog (fun _ => none) "job_missing" "info" "hello" "t0" = (fun _ => none) ∧
      getJob (addJobLog (fun _ => none) "job_missing" "info" "hello" "t0") "job_missing" = none :=
  c10_addJobLog_unknown_id_noop (fun _ => none) "job_missing" "info" "hello" "t0" rfl

/-- C7: whenever the submission payload is present (truthy), the handler
responds with status `"queued"`, the fresh job's id and its creation
timestamp; and at response time the stored job is still untouched by any
orchestration work: status `"queued"`, no `startedAt`, no logs. -/
theorem c7_submit_returns_queued (s : Store) (c : Option String) (cn : Option String)
    (jobId now code : String) (hc : c = some code) (hne : code ≠ "") :
    (compileJobPost s c cn jobId now).2 = Except.ok
        { job_id := jobId
          status := "queued"
          message := "Compilation job queued successfully"
          created_at := now } ∧
      ((compileJobPost s c cn jobId now).1 jobId).map Job.status = some "queued" ∧
      ((compileJobPost s c cn jobId now).1 jobId).map Job.startedAt = some none ∧
      ((compileJobPost s c cn jobId now).1 jobId).map Job.logs = some [] := by
  subst hc
  simp [compileJobPost, createJob, jobsSet, hne]

/-- Witness for C7 at a concrete submission. -/
theorem c7_witness :
    (compileJobPost (fun _ => none) (some "fn main()") none "job_1" "t0").2 = Except.ok
        { job_id := "job_1"
          status := "queued"
          message := "Compilation job queued successfully"
          created_at := "t0" } ∧
      ((compileJobPost (fun _ => none) (some "fn main()") none "job_1" "t0").1 "job_1").map
          Job.status = some "queued" ∧
      ((compileJobPost (fun _ => none) (some "fn main()") none "job_1" "t0").1 "job_1").map
          Job.startedAt = some none ∧
      ((compileJobPost (fun _ => none) (some "fn main()") none "job_1" "t0").1 "job_1").map
          Job.logs = some [] :=
  c7_submit_returns_queued (fun _ => none) (some "fn main()") none "job_1" "t0"
    "fn main()" rfl (by decide)

theorem join_snoc (l : List String) (x : String) :
    String.join (l ++ [x]) = String.join l ++ x := by
  simp [String.join, List.foldl_append]

theorem channelText_snoc (logs : List LogEntry) (e : LogEntry) (ch : String) :
    channelText (logs ++ [e]) ch
      = channelText logs ch ++ (if e.type == ch then e.message else "") := by
  by_cases h : e.type == ch <;>
    simp [channelText, List.filter_append, h, join_snoc]

/-- C8: at every point of a job's life the aggregated `stdout` equals the
concatenation, in insertion order, of the messages of its log entries on
channel `stdout`, and likewise `stderr`; both creating a job and
appending a log entry on any channel preserve this invariant for every
job in the store. -/
theorem c8_aggregated_channels_invariant :
    (∀ (s : Store) (jobId contractName code now : String), StoreInv s →
        StoreInv (createJob s jobId contractName code now).1) ∧
    (∀ (s : Store) (jobId logType message now : String), StoreInv s →
        StoreInv (addJobLog s jobId logType message now)) := by
  constructor
  · intro s jobId contractName code now inv k j hk
    simp only [createJob, jobsSet] at hk
    by_cases hkj : k = jobId
    · rw [if_pos hkj, Option.some.injEq] at hk
      subst hk
      simp only [aggInv]
      exact ⟨rfl, rfl⟩
    · rw [if_neg hkj] at hk
      exact inv k j hk
  · intro s jobId logType message now inv k j hk
    unfold addJobLog at hk
    cases hs : s jobId with
    | none => rw [hs] at hk; exact inv k j hk
    | some job =>
      rw [hs] at hk
      simp only [jobsSet] at hk
      by_cases hkj : k = jobId
      · rw [if_pos hkj, Option.some.injEq] at hk
        subst hk
        obtain ⟨h1, h2⟩ := inv jobId job hs
        by_cases ht1 : logType = "stdout"
        · subst ht1
          constructor <;> simp [channelText_snoc, h1, h2]
        · by_cases ht2 : logType = "stderr"
          · subst ht2
            constructor <;> simp [channelText_snoc, h1, h2]
          · constructor <;> simp [ht1, ht2, channelText_snoc, h1, h2]
      · rw [if_neg hkj] at hk
        exact inv k j hk

/-- Witness for C8: the invariant after one create and one append. -/
theorem c8_witness :
    StoreInv (addJobLog (createJob (fun _ => none) "job_1" "demo" "code" "t0").1
      "job_1" "stdout" "hello" "t1") :=
  c8_aggregated_channels_invariant.2 (createJob (fun _ => none) "job_1" "demo" "code" "t0").1
    "job_1" "stdout" "hello" "t1"
    (c8_aggregated_channels_invariant.1 (fun _ => none) "job_1" "demo" "code" "t0"
      (fun _ _ h => Option.noConfusion h))

/-- C1 (amended): statuses only move forward along `queued` (creation) →
`running` (dispatch, run once before the child is spawned) →
`completed`/`failed`: every finalization handler sets a terminal status
and log appends never change `status`, so a terminal status never
reverts.  But a terminal record is not frozen: each finalization handler
appends one final log entry after its terminal update (the update fixing
`status`, `exitCode`, `completedAt` and leaving `stdout`/`stderr`
untouched); and on a spawn failure Node fires `close` (null code) after
`error`, so the close handler runs on the already-failed record a second
time — overwriting `completedAt` and `error`, setting `exitCode` to
null, and appending a second `error` log entry, with the job still
`failed` and `stdout`/`stderr` still untouched (last conjunct). -/
theorem c1_terminal_finalization :
    (∀ (s : Store) (jobId : String) (j : Job) (code : Option Int) (t1 t2 : String),
      s jobId = some j →
        (closeHandlerStore s jobId code t1 t2 jobId).map Job.status
            = some (if code = some 0 then "completed" else "failed") ∧
        (closeHandlerStore s jobId code t1 t2 jobId).map Job.logs
            = some (j.logs ++ [⟨t2, if code = some 0 then "success" else "error",
                if code = some 0 then "Compilation completed successfully"
                else "Compilation failed with exit code " ++ jsShowNullable code⟩]) ∧
        (closeHandlerStore s jobId code t1 t2 jobId).map Job.stdout = some j.stdout ∧
        (closeHandlerStore s jobId code t1 t2 jobId).map Job.stderr = some j.stderr ∧
        (closeHandlerStore s jobId code t1 t2 jobId).map Job.exitCode = some code ∧
        (closeHandlerStore s jobId code t1 t2 jobId).map Job.completedAt = some (some t1)) ∧
    (∀ (s : Store) (jobId msg t1 t2 : String) (j : Job),
      s jobId = some j →
        (errorHandlerStore s jobId msg t1 t2 jobId).map Job.status = some "failed" ∧
        (errorHandlerStore s jobId msg t1 t2 jobId).map Job.logs
            = some (j.logs ++ [⟨t2, "error", "Process error: " ++ msg⟩]) ∧
        (errorHandlerStore s jobId msg t1 t2 jobId).map Job.stdout = some j.stdout ∧
        (errorHandlerStore s jobId msg t1 t2 jobId).map Job.stderr = some j.stderr ∧
        (errorHandlerStore s jobId msg t1 t2 jobId).map Job.exitCode = some j.exitCode) ∧
    (∀ (s : Store) (jobId msg t1 t2 : String) (j : Job),
      s jobId = some j →
        (setupCatchStore s jobId msg t1 t2 jobId).map Job.status = some "failed" ∧
        (setupCatchStore s jobId msg t1 t2 jobId).map Job.logs
            = some (j.logs ++ [⟨t2, "error", "Setup error: " ++ msg⟩])) ∧
    (∀ (s : Store) (jobId logType message now : String) (j : Job),
      s jobId = some j →
        (addJobLog s jobId logType message now jobId).map Job.status = some j.status) ∧
    (∀ (s : Store) (jobId now : String) (j : Job),
      s jobId = some j →
        (updateJob s jobId (setRunningUpd now) jobId).map Job.status = some "running" ∧
        (updateJob s jobId (setRunningUpd now) jobId).map Job.startedAt = some (some now) ∧
        (updateJob s jobId (setRunningUpd now) jobId).map Job.logs = some j.logs) ∧
    (∀ (s : Store) (jobId msg t1 t2 t3 t4 : String) (j : Job),
      s jobId = some j →
        (closeHandlerStore (errorHandlerStore s jobId msg t1 t2) jobId none t3 t4 jobId).map
            Job.status = some "failed" ∧
        (closeHandlerStore (errorHandlerStore s jobId msg t1 t2) jobId none t3 t4 jobId).map
            Job.logs = some (j.logs ++
              [⟨t2, "error", "Process error: " ++ msg⟩,
               ⟨t4, "error", "Compilation failed with exit code " ++ jsShowNullable none⟩]) ∧
        (closeHandlerStore (errorHandlerStore s jobId msg t1 t2) jobId none t3 t4 jobId).map
            Job.completedAt = some (some t3) ∧
        (closeHandlerStore (errorHandlerStore s jobId msg t1 t2) jobId none t3 t4 jobId).map
            Job.exitCode = some none ∧
        (closeHandlerStore (errorHandlerStore s jobId msg t1 t2) jobId none t3 t4 jobId).map
            Job.error = some (some "Compilation failed") ∧
        (closeHandlerStore (errorHandlerStore s jobId msg t1 t2) jobId none t3 t4 jobId).map
            Job.stdout = some j.stdout ∧
        (closeHandlerStore (errorHandlerStore s jobId msg t1 t2) jobId none t3 t4 jobId).map
            Job.stderr = some j.stderr) := by
  refine ⟨?_, ?_, ?_, ?_, ?_, ?_⟩
  · intro s jobId j code t1 t2 h
    by_cases hc : code = some 0 <;>
      simp [closeHandlerStore, hc, updateJob, h, addJobLog, jobsSet,
        completeUpd, failUpd]
  · intro s jobId msg t1 t2 j h
    simp [errorHandlerStore, updateJob, h, addJobLog, jobsSet, failErrUpd]
  · intro s jobId msg t1 t2 j h
    simp [setupCatchStore, updateJob, h, addJobLog, jobsSet, failErrUpd]
  · intro s jobId logType message now j h
    unfold addJobLog
    rw [h]
    by_cases h1 : logType = "stdout" <;> by_cases h2 : logType = "stderr" <;>
      simp [h1, h2, jobsSet]
  · intro s jobId now j h
    simp [updateJob, h, jobsSet, setRunningUpd]
  · intro s jobId msg t1 t2 t3 t4 j h
    simp [closeHandlerStore, errorHandlerStore, updateJob, addJobLog, jobsSet, h,
      failErrUpd, failUpd, jsShowNullable]

/-- Witness for C1 at a concrete job and the zero-exit close handler. -/
theorem c1_witness :
    ((closeHandlerStore (createJob (fun _ => none) "job_1" "demo" "src" "t0").1 "job_1"
        (some 0) "t1" "t2" "job_1").map Job.status
      = some (if (some 0 : Option Int) = some 0 then "completed" else "failed") ∧
    (closeHandlerStore (createJob (fun _ => none) "job_1" "demo" "src" "t0").1 "job_1"
        (some 0) "t1" "t2" "job_1").map Job.logs
      = some ((createJob (fun _ => none) "job_1" "demo" "src" "t0").2.logs ++
          [⟨"t2", if (some 0 : Option Int) = some 0 then "success" else "error",
            if (some 0 : Option Int) = some 0 then "Compilation completed successfully"
            else "Compilation failed with exit code " ++ jsShowNullable (some 0)⟩]) ∧
    (closeHandlerStore (createJob (fun _ => none) "job_1" "demo" "src" "t0").1 "job_1"
        (some 0) "t1" "t2" "job_1").map Job.stdout
      = some (createJob (fun _ => none) "job_1" "demo" "src" "t0").2.stdout ∧
    (closeHandlerStore (createJob (fun _ => none) "job_1" "demo" "src" "t0").1 "job_1"
        (some 0) "t1" "t2" "job_1").map Job.stderr
      = some (createJob (fun _ => none) "job_1" "demo" "src" "t0").2.stderr ∧
    (closeHandlerStore (createJob (fun _ => none) "job_1" "demo" "src" "t0").1 "job_1"
        (some 0) "t1" "t2" "job_1").map Job.exitCode = some (some 0) ∧
    (closeHandlerStore (createJob (fun _ => none) "job_1" "demo" "src" "t0").1 "job_1"
        (some 0) "t1" "t2" "job_1").map Job.completedAt = some (some "t1")) ∧
    ((closeHandlerStore (errorHandlerStore (createJob (fun _ => none) "job_1" "demo" "src"
          "t0").1 "job_1" "spawn pop ENOENT" "t1" "t2") "job_1" none "t3" "t4" "job_1").map
        Job.status = some "failed" ∧
    (closeHandlerStore (errorHandlerStore (createJob (fun _ => none) "job_1" "demo" "src"
          "t0").1 "job_1" "spawn pop ENOENT" "t1" "t2") "job_1" none "t3" "t4" "job_1").map
        Job.logs = some ((createJob (fun _ => none) "job_1" "demo" "src" "t0").2.logs ++
          [⟨"t2", "error", "Process error: " ++ "spawn pop ENOENT"⟩,
           ⟨"t4", "error", "Compilation failed with exit code " ++ jsShowNullable none⟩]) ∧
    (closeHandlerStore (errorHandlerStore (createJob (fun _ => none) "job_1" "demo" "src"
          "t0").1 "job_1" "spawn pop ENOENT" "t1" "t2") "job_1" none "t3" "t4" "job_1").map
        Job.completedAt = some (some "t3") ∧
    (closeHandlerStore (errorHandlerStore (createJob (fun _ => none) "job_1" "demo" "src"
          "t0").1 "job_1" "spawn pop ENOENT" "t1" "t2") "job_1" none "t3" "t4" "job_1").map
        Job.exitCode = some none ∧
    (closeHandlerStore (errorHandlerStore (createJob (fun _ => none) "job_1" "demo" "src"
          "t0").1 "job_1" "spawn pop ENOENT" "t1" "t2") "job_1" none "t3" "t4" "job_1").map
        Job.error = some (some "Compilation failed") ∧
    (closeHandlerStore (errorHandlerStore (createJob (fun _ => none) "job_1" "demo" "src"
          "t0").1 "job_1" "spawn pop ENOENT" "t1" "t2") "job_1" none "t3" "t4" "job_1").map
        Job.stdout = some (createJob (fun _ => none) "job_1" "demo" "src" "t0").2.stdout ∧
    (closeHandlerStore (errorHandlerStore (createJob (fun _ => none) "job_1" "demo" "src"
          "t0").1 "job_1" "spawn pop ENOENT" "t1" "t2") "job_1" none "t3" "t4" "job_1").map
        Job.stderr = some (createJob (fun _ => none) "job_1" "demo" "src" "t0").2.stderr) :=
  ⟨c1_terminal_finalization.1 (createJob (fun _ => none) "job_1" "demo" "src" "t0").1
    "job_1" (createJob (fun _ => none) "job_1" "demo" "src" "t0").2 (some 0) "t1" "t2"
    (by decide),
   c1_terminal_finalization.2.2.2.2.2 (createJob (fun _ => none) "job_1" "demo" "src" "t0").1
    "job_1" "spawn pop ENOENT" "t1" "t2" "t3" "t4"
    (createJob (fun _ => none) "job_1" "demo" "src" "t0").2 (by decide)⟩

/-- Counterexample to C1 as stated: in the close handler's own operation
sequence, the job's status is already `completed` after the terminal
update, and the handler's very next store operation appends a log entry —
a field of a terminal job changes. -/
theorem c1_counterexample :
    (c1ScenarioMid "job_1").map Job.status = some "completed" ∧
    (c1ScenarioMid "job_1").map (fun j => j.logs.length) = some 0 ∧
    (c1ScenarioEnd "job_1").map (fun j => j.logs.length) = some 1 := by
  refine ⟨?_, ?_, ?_⟩ <;> decide

theorem jobsSet_self (s : Store) (k : String) (v : Job) : jobsSet s k v k = some v := by
  simp [jobsSet]

theorem updateJob_self (s : Store) (k : String) (f : Job → Job) (j : Job) (h : s k = some j) :
    updateJob s k f k = some (f j) := by
  unfold updateJob
  rw [h]
  exact jobsSet_self s k (f j)

theorem addJobLog_logs (s : Store) (k logType message now : String) (j : Job)
    (h : s k = some j) :
    ∃ j', addJobLog s k logType message now k = some j' ∧
      j'.logs = j.logs ++ [⟨now, logType, message⟩] := by
  unfold addJobLog
  rw [h]
  refine ⟨_, jobsSet_self _ _ _, ?_⟩
  by_cases h1 : logType = "stdout" <;> by_cases h2 : logType = "stderr" <;> simp [h1, h2]

theorem streamEventLogs_snoc_complete (l : List LogEntry) (st : Option String) :
    streamEventLogs (l.map StreamEvent.log ++ [StreamEvent.complete st]) = l := by
  induction l with
  | nil => rfl
  | cons e t ih =>
    simp only [List.map_cons, List.cons_append, streamEventLogs, List.filterMap_cons] at ih ⊢
    rw [ih]

theorem streamEventLogs_events (job : Job) (fs : Option String) :
    streamEventLogs (streamLogsEvents job fs) = job.logs := by
  unfold streamLogsEvents
  by_cases h : job.status = "running" ∨ job.status = "queued"
  · rw [if_pos h, streamEventLogs_snoc_complete]
  · rw [if_neg h, streamEventLogs_snoc_complete]

theorem orchStep_logs_extend {jobId : String} {s s' : Store}
    (h : OrchestratorStep jobId s s') (j : Job) (hj : s jobId = some j) :
    ∃ j', s' jobId = some j' ∧ ∃ tail, j'.logs = j.logs ++ tail := by
  cases h with
  | run now =>
    exact ⟨_, updateJob_self s jobId (setRunningUpd now) j hj, [], by simp [setRunningUpd]⟩
  | appendLog logType message now =>
    obtain ⟨j', h1, h2⟩ := addJobLog_logs s jobId logType message now j hj
    exact ⟨j', h1, [⟨now, logType, message⟩], h2⟩
  | finishOk now code =>
    exact ⟨_, updateJob_self s jobId (completeUpd now code) j hj, [], by simp [completeUpd]⟩
  | finishFail now code =>
    exact ⟨_, updateJob_self s jobId (failUpd now code) j hj, [], by simp [failUpd]⟩
  | finishErr now msg =>
    exact ⟨_, updateJob_self s jobId (failErrUpd now msg) j hj, [], by simp [failErrUpd]⟩

theorem orchEvolves_logs_extend {jobId : String} {s s' : Store}
    (h : OrchEvolves jobId s s') :
    ∀ j, s jobId = some j → ∃ j', s' jobId = some j' ∧ ∃ tail, j'.logs = j.logs ++ tail := by
  induction h with
  | refl => exact fun j hj => ⟨j, hj, [], by simp⟩
  | tail _ hstep ih =>
    intro j hj
    obtain ⟨j1, h1, t1, hl1⟩ := ih j hj
    obtain ⟨j2, h2, t2, hl2⟩ := orchStep_logs_extend hstep j1 h1
    exact ⟨j2, h2, t1 ++ t2, by rw [hl2, hl1, List.append_assoc]⟩

/-- C2 (amended): a live subscriber receives exactly the log entries
recorded at connection time, then exactly one `complete` event, and
nothing else — entries the orchestrator appends after the connection are
never delivered (the polling interval only watches for the terminal
state).  Consequently the subscriber's received entries are a prefix of
the entries returned by any later pull fetch, not the other way
around. -/
theorem c2_stream_replays_connect_time_logs :
    (∀ (job : Job) (fs : Option String),
      streamEventLogs (streamLogsEvents job fs) = job.logs) ∧
    (∀ (job : Job) (fs : Option String), ∃ st,
      streamLogsEvents job fs = job.logs.map StreamEvent.log ++ [StreamEvent.complete st]) ∧
    (∀ (jobId : String) (s s' : Store) (job : Job) (fs : Option String),
      s jobId = some job → OrchEvolves jobId s s' →
        ∃ j', s' jobId = some j' ∧ ∃ tail,
          (pullLogs j').1 = streamEventLogs (streamLogsEvents job fs) ++ tail) := by
  refine ⟨streamEventLogs_events, ?_, ?_⟩
  · intro job fs
    unfold streamLogsEvents
    by_cases h : job.status = "running" ∨ job.status = "queued"
    · rw [if_pos h]; exact ⟨fs, rfl⟩
    · rw [if_neg h]; exact ⟨some job.status, rfl⟩
  · intro jobId s s' job fs hj hev
    obtain ⟨j', h', tail, hl⟩ := orchEvolves_logs_extend hev job hj
    exact ⟨j', h', tail, by rw [pullLogs, hl, streamEventLogs_events]⟩

/-- Witness for C2: the concrete subscriber-from-time-zero scenario. -/
theorem c2_witness :
    streamEventLogs (streamLogsEvents c2ConnectJob (some "completed")) = c2ConnectJob.logs ∧
    (∃ j', c2LaterStore "job_1" = some j' ∧ ∃ tail,
      (pullLogs j').1 = streamEventLogs (streamLogsEvents c2ConnectJob (some "completed")) ++ tail) :=
  ⟨c2_stream_replays_connect_time_logs.1 c2ConnectJob (some "completed"),
    c2_stream_replays_connect_time_logs.2.2 "job_1"
      (createJob (fun _ => none) "job_1" "temp_contract" "src" "t0").1 c2LaterStore
      c2ConnectJob (some "completed") (by decide)
      (Relation.ReflTransGen.tail
        (Relation.ReflTransGen.single
          (OrchestratorStep.run (createJob (fun _ => none) "job_1" "temp_contract" "src" "t0").1 "t1"))
        (OrchestratorStep.appendLog
          (updateJob (createJob (fun _ => none) "job_1" "temp_contract" "src" "t0").1
            "job_1" (setRunningUpd "t1")) "info" "Starting compilation..." "t2"))⟩

/-- Counterexample to C2 as stated: a subscriber connected from time zero
(no entries yet) receives no log event at all — in particular not the
entry the orchestrator appends next — while a pull fetch after that
append returns that entry; so the pull result is not a prefix of the
entries the subscriber eventually receives. -/
theorem c2_counterexample :
    streamEventLogs (streamLogsEvents c2ConnectJob (some "completed")) = [] ∧
    (c2LaterStore "job_1").map (fun j => (pullLogs j).1)
      = some [⟨"t2", "info", "Starting compilation..."⟩] ∧
    StreamEvent.log ⟨"t2", "info", "Starting compilation..."⟩
        ∉ streamLogsEvents c2ConnectJob (some "completed") ∧
    ¬ ([(⟨"t2", "info", "Starting compilation..."⟩ : LogEntry)] <+:
        streamEventLogs (streamLogsEvents c2ConnectJob (some "completed"))) := by
  refine ⟨?_, ?_, ?_, ?_⟩ <;> decide

/-- C3 (amended): the compile-job `spawn` invocation specifies no maximum
duration at all — its options carry no `timeout` — so the child is never
terminated on time grounds and no timeout failure exists on this path
(in contrast to the synchronous `/compile` endpoint's `exec`, which does
pass a 300000 ms timeout). -/
theorem c3_spawn_has_no_timeout (contractName : String) (nowMs : Nat)
    (ambient : String → Option String) :
    (compileJobSpawn contractName nowMs ambient).2.2.timeout = none :=
  rfl

/-- Counterexample to C3 as stated: the concrete spawn options of a
compile-job invocation carry no maximum duration. -/
theorem c3_counterexample :
    (compileJobSpawn "temp_contract" 0 (fun _ => none)).2.2.timeout = none :=
  rfl

/-- C6 (amended): the child environment is the ambient service
environment with exactly five keys written over it (`CARGO_HOME`,
`CARGO_TARGET_DIR`, `CARGO_INCREMENTAL`, `CARGO_BUILD_JOBS`, and `PATH`
prefixed with `/root/.cargo/bin:`); every other ambient variable is
inherited by the child unchanged. -/
theorem c6_env_inherits_ambient (ambient : String → Option String) (k : String)
    (h1 : k ≠ "CARGO_HOME") (h2 : k ≠ "CARGO_TARGET_DIR") (h3 : k ≠ "CARGO_INCREMENTAL")
    (h4 : k ≠ "CARGO_BUILD_JOBS") (h5 : k ≠ "PATH") :
    childEnv ambient k = ambient k ∧
      childEnv ambient "CARGO_HOME" = some cargoHomeDir ∧
      childEnv ambient "CARGO_TARGET_DIR" = some cargoTargetDir ∧
      childEnv ambient "CARGO_INCREMENTAL" = some "1" ∧
      childEnv ambient "CARGO_BUILD_JOBS" = some "4" ∧
      childEnv ambient "PATH" = some ("/root/.cargo/bin:" ++ jsUndef (ambient "PATH")) := by
  unfold childEnv
  simp [h1, h2, h3, h4, h5]

/-- Witness for C6 at a key the code does not control. -/
theorem c6_witness :
    childEnv (fun _ => some "x") "FOO" = (fun _ => some "x") "FOO" ∧
      childEnv (fun _ => some "x") "CARGO_HOME" = some cargoHomeDir ∧
      childEnv (fun _ => some "x") "CARGO_TARGET_DIR" = some cargoTargetDir ∧
      childEnv (fun _ => some "x") "CARGO_INCREMENTAL" = some "1" ∧
      childEnv (fun _ => some "x") "CARGO_BUILD_JOBS" = some "4" ∧
      childEnv (fun _ => some "x") "PATH"
        = some ("/root/.cargo/bin:" ++ jsUndef ((fun _ => some "x") "PATH")) :=
  c6_env_inherits_ambient (fun _ => some "x") "FOO" (by decide) (by decide) (by decide)
    (by decide) (by decide)

/-- Counterexample to C6 as stated: two ambient environments differing in
a variable the code does not set hand different environments to the
child — the ambient environment is inherited through the spread. -/
theorem c6_counterexample :
    (compileJobSpawn "temp_contract" 0 (fun _ => none)).2.2.env "FOO" = none ∧
    (compileJobSpawn "temp_contract" 0
        (fun k => if k = "FOO" then some "bar" else none)).2.2.env "FOO" = some "bar" ∧
    (compileJobSpawn "temp_contract" 0 (fun _ => none)).2.2.env ≠
      (compileJobSpawn "temp_contract" 0
        (fun k => if k = "FOO" then some "bar" else none)).2.2.env := by
  refine ⟨by decide, by decide, fun h => absurd (congrFun h "FOO") (by decide)⟩

/-- C4 (amended): the temp working directory is removed on every path
where the child's `close` event fires — successful exit, non-zero exit,
and launch error, since Node emits `close` after `error` when the spawn
fails — but a working-area setup failure runs only the `catch`, which
removes nothing, so that path leaks the directory once it was created. -/
theorem c4_cleanup_only_on_close (contractName : String) (nowMs : Nat) :
    (∀ code, FsOp.rmRecursiveForce (tempDirFor contractName nowMs)
        ∈ processJobFsOps contractName nowMs (JobFsOutcome.processClosed code)) ∧
    FsOp.rmRecursiveForce (tempDirFor contractName nowMs)
        ∈ processJobFsOps contractName nowMs JobFsOutcome.launchError ∧
    (∀ k, FsOp.rmRecursiveForce (tempDirFor contractName nowMs)
        ∉ processJobFsOps contractName nowMs (JobFsOutcome.setupFailure k)) := by
  refine ⟨?_, ?_, ?_⟩
  · intro code
    simp [processJobFsOps]
  · simp [processJobFsOps]
  · intro k hmem
    have hsub : FsOp.rmRecursiveForce (tempDirFor contractName nowMs)
        ∈ jobSetupFsOps contractName nowMs := List.take_subset k _ hmem
    simp [jobSetupFsOps] at hsub

/-- Counterexample to C4 as stated: a setup failure right after the
project files started being written (five setup operations done, the
sixth threw) leaves the created temp directory with no removal — the
`catch` performs no filesystem operation and no `close` event exists. -/
theorem c4_counterexample :
    FsOp.rmRecursiveForce (tempDirFor "temp_contract" 0)
        ∉ processJobFsOps "temp_contract" 0 (JobFsOutcome.setupFailure 5) ∧
    FsOp.mkdirRecursive (tempDirFor "temp_contract" 0)
        ∈ processJobFsOps "temp_contract" 0 (JobFsOutcome.setupFailure 5) := by
  refine ⟨?_, ?_⟩ <;> decide

theorem parseLinesFrom_nil_emit (e : RustError) (acc : List RustError) :
    parseLinesFrom [] (some e) acc = acc ++ [e] := by
  simp [parseLinesFrom]

theorem parseLinesFrom_error_step (l : String) (ls : List String) (cur : Option RustError)
    (acc : List RustError) (c m : String) (h : matchErrorLine l = some (c, m)) :
    parseLinesFrom (l :: ls) cur acc
      = parseLinesFrom ls (some { code := c, message := m, location := none, details := [] })
          (acc ++ cur.toList) := by
  cases cur <;> simp [parseLinesFrom, h]

theorem parseLinesFrom_loc_step (l : String) (ls : List String) (e : RustError)
    (acc : List RustError) (f : String) (ln col : Nat)
    (h1 : matchErrorLine l = none) (h2 : matchLocationLine l = some (f, ln, col)) :
    parseLinesFrom (l :: ls) (some e) acc
      = parseLinesFrom ls
          (some { e with location := some { file := f, line := ln, column := col } }) acc := by
  simp [parseLinesFrom, h1, h2]

theorem parseLinesFrom_detail_step (l : String) (ls : List String) (e : RustError)
    (acc : List RustError) (h1 : matchErrorLine l = none) (h2 : matchLocationLine l = none)
    (h3 : isDetailLine l = true) :
    parseLinesFrom (l :: ls) (some e) acc
      = parseLinesFrom ls (some { e with details := e.details ++ [l] }) acc := by
  simp [parseLinesFrom, h1, h2, h3]

theorem parseLinesFrom_other_step (l : String) (ls : List String) (e : RustError)
    (acc : List RustError) (h1 : matchErrorLine l = none) (h2 : matchLocationLine l = none)
    (h3 : isDetailLine l = false) :
    parseLinesFrom (l :: ls) (some e) acc = parseLinesFrom ls (some e) acc := by
  simp [parseLinesFrom, h1, h2, h3]

theorem parseLinesFrom_skip (l : String) (ls : List String) (acc : List RustError)
    (h : matchErrorLine l = none) :
    parseLinesFrom (l :: ls) none acc = parseLinesFrom ls none acc := by
  cases h2 : matchLocationLine l <;> simp [parseLinesFrom, h, h2]

theorem parseLinesFrom_no_error_prefix (pre rest : List String)
    (h : ∀ l ∈ pre, matchErrorLine l = none) :
    parseLinesFrom (pre ++ rest) none [] = parseLinesFrom rest none [] := by
  induction pre with
  | nil => rfl
  | cons l t ih =>
    rw [List.cons_append, parseLinesFrom_skip l _ _ (h l (by simp))]
    exact ih (fun x hx => h x (by simp [hx]))

theorem parseRustErrorLines_no_error (lines : List String)
    (h : ∀ l ∈ lines, matchErrorLine l = none) :
    parseRustErrorLines lines = [] := by
  have h2 := parseLinesFrom_no_error_prefix lines [] h
  simpa [parseRustErrorLines, parseLinesFrom] using h2

theorem parseLinesFrom_details (ds : List String) (e : RustError) (acc : List RustError)
    (h : ∀ d ∈ ds, matchErrorLine d = none ∧ matchLocationLine d = none ∧ isDetailLine d = true) :
    parseLinesFrom ds (some e) acc = acc ++ [{ e with details := e.details ++ ds }] := by
  induction ds generalizing e with
  | nil => simp [parseLinesFrom]
  | cons d t ih =>
    obtain ⟨h1, h2, h3⟩ := h d (by simp)
    rw [parseLinesFrom_detail_step d t e acc h1 h2 h3,
      ih _ (fun x hx => h x (by simp [hx]))]
    simp

/-- C5: the extractor scans lines in order with an open-record state: an
`error[code]: message` line emits any open record and opens a fresh one;
a `--> file:line:column` line attaches a location to the open record;
any other non-blank line not starting with `Compiling`/`Finished` is
appended verbatim to the open record's details; remaining lines leave
the state unchanged; at end of input an open record is emitted; lines
before the first error line are dropped; and input with no error line at
all yields the empty sequence (the extractor is a total function — it
raises nothing). -/
theorem c5_extractor_line_scan :
    (∀ (input : String), (∀ l ∈ jsSplitLines input, matchErrorLine l = none) →
      parseRustErrors input = []) ∧
    (∀ (pre rest : List String), (∀ l ∈ pre, matchErrorLine l = none) →
      parseLinesFrom (pre ++ rest) none [] = parseLinesFrom rest none []) ∧
    (∀ (l : String) (ls : List String) (cur : Option RustError) (acc : List RustError)
        (c m : String), matchErrorLine l = some (c, m) →
      parseLinesFrom (l :: ls) cur acc
        = parseLinesFrom ls (some { code := c, message := m, location := none, details := [] })
            (acc ++ cur.toList)) ∧
    (∀ (l : String) (ls : List String) (e : RustError) (acc : List RustError)
        (f : String) (ln col : Nat),
      matchErrorLine l = none → matchLocationLine l = some (f, ln, col) →
      parseLinesFrom (l :: ls) (some e) acc
        = parseLinesFrom ls
            (some { e with location := some { file := f, line := ln, column := col } }) acc) ∧
    (∀ (l : String) (ls : List String) (e : RustError) (acc : List RustError),
      matchErrorLine l = none → matchLocationLine l = none → isDetailLine l = true →
      parseLinesFrom (l :: ls) (some e) acc
        = parseLinesFrom ls (some { e with details := e.details ++ [l] }) acc) ∧
    (∀ (l : String) (ls : List String) (e : RustError) (acc : List RustError),
      matchErrorLine l = none → matchLocationLine l = none → isDetailLine l = false →
      parseLinesFrom (l :: ls) (some e) acc = parseLinesFrom ls (some e) acc) ∧
    (∀ (e : RustError) (acc : List RustError),
      parseLinesFrom [] (some e) acc = acc ++ [e]) := by
  refine ⟨?_, parseLinesFrom_no_error_prefix, parseLinesFrom_error_step,
    parseLinesFrom_loc_step, parseLinesFrom_detail_step, parseLinesFrom_other_step,
    parseLinesFrom_nil_emit⟩
  intro input h
  exact parseRustErrorLines_no_error (jsSplitLines input) h

/-- Witness for C5: a no-error input, the error-line step and the
end-of-input emission, at concrete values. -/
theorem c5_witness :
    parseRustErrors "Compiling demo v0.1.0\nwarning: unused variable\nFinished dev" = [] ∧
    parseLinesFrom ["error[E0308]: mismatched types"] none []
      = parseLinesFrom []
          (some { code := "E0308", message := "mismatched types",
                  location := none, details := [] }) [] ∧
    parseLinesFrom []
        (some { code := "E0308", message := "mismatched types",
                location := none, details := [] }) []
      = [{ code := "E0308", message := "mismatched types", location := none, details := [] }] :=
  ⟨c5_extractor_line_scan.1 "Compiling demo v0.1.0\nwarning: unused variable\nFinished dev"
      (by decide),
   by
    have h := c5_extractor_line_scan.2.2.1 "error[E0308]: mismatched types" [] none []
      "E0308" "mismatched types" (by decide)
    simpa using h,
   by
    have h := c5_extractor_line_scan.2.2.2.2.2.2
      { code := "E0308", message := "mismatched types", location := none, details := [] } []
    simpa using h⟩

/-- C9: an input whose lines are one well-formed diagnostic block — an
error line with a code, a location line, then detail lines — yields
exactly one record with code, message and location populated and exactly
those detail lines; and an input with no error line yields the empty
sequence. -/
theorem c9_single_block_roundtrip :
    (∀ (input e l : String) (ds : List String) (c m f : String) (ln col : Nat),
      jsSplitLines input = e :: l :: ds →
      matchErrorLine e = some (c, m) →
      matchErrorLine l = none →
      matchLocationLine l = some (f, ln, col) →
      (∀ d ∈ ds, matchErrorLine d = none ∧ matchLocationLine d = none ∧ isDetailLine d = true) →
      parseRustErrors input
        = [{ code := c, message := m,
             location := some { file := f, line := ln, column := col }, details := ds }]) ∧
    (∀ (input : String), (∀ l2 ∈ jsSplitLines input, matchErrorLine l2 = none) →
      parseRustErrors input = []) := by
  constructor
  · intro input e l ds c m f ln col hsplit he hl1 hl2 hds
    unfold parseRustErrors parseRustErrorLines
    rw [hsplit, parseLinesFrom_error_step e _ none [] c m he,
      parseLinesFrom_loc_step l ds _ _ f ln col hl1 hl2,
      parseLinesFrom_details ds _ _ hds]
    simp
  · intro input h
    exact parseRustErrorLines_no_error (jsSplitLines input) h

/-- Witness for C9: the `E0308` at `lib.rs:10:5` scenario and a no-block
input. -/
theorem c9_witness :
    parseRustErrors
        "error[E0308]: mismatched types\n  --> lib.rs:10:5\n   |\n10 |     let x = y;"
      = [{ code := "E0308", message := "mismatched types",
           location := some { file := "lib.rs", line := 10, column := 5 },
           details := ["   |", "10 |     let x = y;"] }] ∧
    parseRustErrors "Compiling demo v0.1.0\nFinished dev target" = [] :=
  ⟨c9_single_block_roundtrip.1
      "error[E0308]: mismatched types\n  --> lib.rs:10:5\n   |\n10 |     let x = y;"
      "error[E0308]: mismatched types" "  --> lib.rs:10:5" ["   |", "10 |     let x = y;"]
      "E0308" "mismatched types" "lib.rs" 10 5
      (by decide) (by decide) (by decide) (by decide) (by decide),
   c9_single_block_roundtrip.2 "Compiling demo v0.1.0\nFinished dev target" (by decide)⟩
